import Mathlib

/-!
# Analytics exposure service: subscription registry and query engine

A shallow embedding of `internal/models/models.go`, `internal/storage/store.go`
and `internal/handlers/analytics.go`, followed by the properties proved about it.

Modelling conventions.

* A Go pointer `*T` that the code never dereferences is an `Option T`
  (`none` is `nil`).  A pointer the code dereferences unconditionally is the
  value itself.
* A Go slice is a `List` (a `nil` slice and an empty slice both have length 0).
* A Go `map[string]V` is an `AList` with `String` keys: a finite map with no
  key stored twice.  Go leaves the iteration order of a map unspecified; the
  embedding iterates in the order of the association list.
* A Go `error` is an `Option String`: `none` is `nil`, `some msg` is
  `errors.New(msg)`.
* A method with a pointer receiver that writes to the store takes the store
  state and returns the new state next to its Go results; a method that only
  reads takes the state and returns its Go results.  The `sync.RWMutex` makes
  every method atomic, so one call is one function application.
-/

namespace models

/-- A Go `float32`, given by its IEEE-754 binary32 bit pattern. -/
structure GoFloat32 where
  bits : Nat
  deriving DecidableEq, Repr

/-- The zero value of a `float32`. -/
def GoFloat32.zero : GoFloat32 := ⟨0⟩

/-- The `float32` constant `0.95`: sign 0, biased exponent 126, fraction `0x733333`. -/
def GoFloat32.lit_0_95 : GoFloat32 := ⟨0x3F733333⟩

/-- The rational value of a normal, positive binary32 bit pattern. -/
def GoFloat32.toRat (f : GoFloat32) : ℚ :=
  let e : Nat := (f.bits / 2 ^ 23) % 2 ^ 8
  let m : Nat := f.bits % 2 ^ 23
  (1 + (m : ℚ) / 2 ^ 23) * (2 : ℚ) ^ ((e : Int) - 127)

/-- A Go `time.Time`, as the three words of its representation. -/
structure Time where
  wall : Nat
  ext : Int
  loc : Option String
  deriving DecidableEq, Repr

/-- The zero value of a `time.Time`. -/
def Time.zero : Time := ⟨0, 0, none⟩

/-- AnalyticsEvent represents analytics event types. -/
abbrev AnalyticsEvent := String

def UE_MOBILITY : AnalyticsEvent := "UE_MOBILITY"
def UE_COMM : AnalyticsEvent := "UE_COMM"
def ABNORMAL_BEHAVIOR : AnalyticsEvent := "ABNORMAL_BEHAVIOR"
def CONGESTION : AnalyticsEvent := "CONGESTION"
def NETWORK_PERFORMANCE : AnalyticsEvent := "NETWORK_PERFORMANCE"
def QOS_SUSTAINABILITY : AnalyticsEvent := "QOS_SUSTAINABILITY"

/-- ReportingInfo represents reporting information. -/
structure ReportingInfo where
  MaxReportNbr : Nat
  Interval : Nat
  deriving DecidableEq, Repr

/-- AnalyticsEventFilterSubsc represents filters for analytics event subscription. -/
structure AnalyticsEventFilterSubsc where
  NetworkPerfReqs : List String
  LocationArea : Option String
  ApplicationIDs : List String
  SNSSAI : Option String
  deriving DecidableEq, Repr

/-- TargetUeID represents target UE identification. -/
structure TargetUeID where
  AnyUEIndication : Bool
  GPSI : Option String
  ExternalGroupID : Option String
  deriving DecidableEq, Repr

/-- AnalyticsEventSubsc represents a subscription to a specific analytics event. -/
structure AnalyticsEventSubsc where
  AnalyticsEvent : models.AnalyticsEvent
  EventFilter : Option AnalyticsEventFilterSubsc
  TargetUE : Option TargetUeID
  deriving DecidableEq, Repr

/-- UEMobilityInfo represents UE mobility exposure information. -/
structure UEMobilityInfo where
  Timestamp : Time
  Duration : Nat
  DurationVariance : GoFloat32
  LocationInfo : List String
  Ratio : GoFloat32
  Confidence : Nat
  deriving DecidableEq, Repr

/-- NetworkPerfInfo represents network performance information. -/
structure NetworkPerfInfo where
  LocationArea : String
  NetworkPerfType : String
  RelativeRatio : GoFloat32
  AbsoluteNum : Nat
  Confidence : Nat
  deriving DecidableEq, Repr

/-- AnalyticsEventNotif represents a notification for an analytics event. -/
structure AnalyticsEventNotif where
  AnalyticsEvent : models.AnalyticsEvent
  Timestamp : Time
  UEMobilityInfo : List models.UEMobilityInfo
  UECommunicationInfo : List String
  AbnormalInfo : List String
  CongestionInfo : List String
  NetworkPerfInfo : List models.NetworkPerfInfo
  QoSSustainInfo : List String
  deriving DecidableEq, Repr

/-- AnalyticsExposureSubsc represents a subscription to analytics exposure. -/
structure AnalyticsExposureSubsc where
  AnalyticsEventSubsc : List models.AnalyticsEventSubsc
  AnalyticsRepInfo : Option ReportingInfo
  NotifURI : String
  NotifID : String
  EventNotifications : List AnalyticsEventNotif
  SuppFeat : Option String
  deriving DecidableEq, Repr

/-- AnalyticsEventFilter represents filters for analytics data fetch requests. -/
structure AnalyticsEventFilter where
  LocationArea : Option String
  DNN : Option String
  NetworkPerfTypes : List String
  ApplicationIDs : List String
  ExceptionIDs : List String
  SNSSAI : Option String
  QoSRequirement : Option String
  deriving DecidableEq, Repr

/-- AnalyticsRequest represents a request for analytics data. -/
structure AnalyticsRequest where
  AnalyticsEvent : models.AnalyticsEvent
  EventFilter : Option AnalyticsEventFilter
  ReportingInfo : Option models.ReportingInfo
  TargetUE : Option TargetUeID
  SuppFeat : String
  deriving DecidableEq, Repr

/-- AnalyticsData represents the response containing analytics data. -/
structure AnalyticsData where
  UEMobilityInfos : List UEMobilityInfo
  UECommunicationInfos : List String
  NetworkPerfInfos : List NetworkPerfInfo
  AbnormalInfos : List String
  CongestionInfos : List String
  QoSSustainInfos : List String
  SuppFeat : Option String
  deriving DecidableEq, Repr

end models

namespace storage

open models

/-- A Go `error`: `none` is `nil`, `some msg` is `errors.New(msg)`. -/
abbrev GoError := Option String

/-- A `*models.AnalyticsExposureSubsc`; the store never dereferences it. -/
abbrev SubscPtr := Option AnalyticsExposureSubsc

/-- A Go `map[string]V`. -/
abbrev GoMap (V : Type) := AList (fun _ : String => V)

/-- InMemoryStore is an in-memory implementation of Store (the mutex is left out). -/
structure InMemoryStore where
  subscriptions : GoMap (GoMap SubscPtr)
  analyticsData : GoMap (Option AnalyticsData)

/-- NewInMemoryStore creates a new in-memory store. -/
def NewInMemoryStore : InMemoryStore :=
  { subscriptions := ∅, analyticsData := ∅ }

/-- CreateSubscription creates a new subscription. -/
def InMemoryStore.CreateSubscription (s : InMemoryStore) (afID subscriptionID : String)
    (subsc : SubscPtr) : InMemoryStore × GoError :=
  let subs1 : GoMap (GoMap SubscPtr) :=
    if (s.subscriptions.lookup afID).isSome then s.subscriptions
    else s.subscriptions.insert afID ∅
  let afSubs : GoMap SubscPtr := (subs1.lookup afID).getD ∅
  if (afSubs.lookup subscriptionID).isSome then
    ({ s with subscriptions := subs1 }, some "subscription already exists")
  else
    ({ s with subscriptions := subs1.insert afID (afSubs.insert subscriptionID subsc) }, none)

/-- GetSubscription retrieves a subscription. -/
def InMemoryStore.GetSubscription (s : InMemoryStore) (afID subscriptionID : String) :
    SubscPtr × GoError :=
  match s.subscriptions.lookup afID with
  | some afSubs =>
    match afSubs.lookup subscriptionID with
    | some subsc => (subsc, none)
    | none => (none, some "subscription not found")
  | none => (none, some "subscription not found")

/-- GetAllSubscriptions retrieves all subscriptions for an AF. -/
def InMemoryStore.GetAllSubscriptions (s : InMemoryStore) (afID : String) :
    List SubscPtr × GoError :=
  match s.subscriptions.lookup afID with
  | some afSubs => (afSubs.entries.map (fun e => e.2), none)
  | none => ([], none)

/-- UpdateSubscription updates an existing subscription. -/
def InMemoryStore.UpdateSubscription (s : InMemoryStore) (afID subscriptionID : String)
    (subsc : SubscPtr) : InMemoryStore × GoError :=
  match s.subscriptions.lookup afID with
  | some afSubs =>
    if (afSubs.lookup subscriptionID).isSome then
      ({ s with subscriptions := s.subscriptions.insert afID (afSubs.insert subscriptionID subsc) },
        none)
    else (s, some "subscription not found")
  | none => (s, some "subscription not found")

/-- DeleteSubscription deletes a subscription. -/
def InMemoryStore.DeleteSubscription (s : InMemoryStore) (afID subscriptionID : String) :
    InMemoryStore × GoError :=
  match s.subscriptions.lookup afID with
  | some afSubs =>
    if (afSubs.lookup subscriptionID).isSome then
      ({ s with subscriptions := s.subscriptions.insert afID (afSubs.erase subscriptionID) }, none)
    else (s, some "subscription not found")
  | none => (s, some "subscription not found")

/-- GetAnalyticsData retrieves analytics data; `req` is dereferenced, so it is a value. -/
def InMemoryStore.GetAnalyticsData (_s : InMemoryStore) (_afID : String)
    (req : AnalyticsRequest) : Option AnalyticsData × GoError :=
  let data : AnalyticsData :=
    { UEMobilityInfos := [], UECommunicationInfos := [], NetworkPerfInfos := [],
      AbnormalInfos := [], CongestionInfos := [], QoSSustainInfos := [],
      SuppFeat := some req.SuppFeat }
  let data : AnalyticsData :=
    if req.AnalyticsEvent = UE_MOBILITY then
      { data with
        UEMobilityInfos :=
          [{ Timestamp := Time.zero, Duration := 3600, DurationVariance := GoFloat32.zero,
             LocationInfo := ["area1", "area2"], Ratio := GoFloat32.zero, Confidence := 0 }] }
    else if req.AnalyticsEvent = NETWORK_PERFORMANCE then
      { data with
        NetworkPerfInfos :=
          [{ LocationArea := "area1", NetworkPerfType := "THROUGHPUT",
             RelativeRatio := GoFloat32.lit_0_95, AbsoluteNum := 0, Confidence := 0 }] }
    else data
  (some data, none)

/-- Store interface defines the storage operations, over any state type `σ`. -/
structure Store (σ : Type) where
  CreateSubscription : σ → String → String → SubscPtr → σ × GoError
  GetSubscription : σ → String → String → σ × (SubscPtr × GoError)
  GetAllSubscriptions : σ → String → σ × (List SubscPtr × GoError)
  UpdateSubscription : σ → String → String → SubscPtr → σ × GoError
  DeleteSubscription : σ → String → String → σ × GoError
  GetAnalyticsData : σ → String → AnalyticsRequest → σ × (Option AnalyticsData × GoError)

/-- The InMemoryStore as an implementation of the Store interface. -/
def InMemoryStore.asStore : Store InMemoryStore where
  CreateSubscription := InMemoryStore.CreateSubscription
  GetSubscription := fun s afID subscriptionID => (s, s.GetSubscription afID subscriptionID)
  GetAllSubscriptions := fun s afID => (s, s.GetAllSubscriptions afID)
  UpdateSubscription := InMemoryStore.UpdateSubscription
  DeleteSubscription := InMemoryStore.DeleteSubscription
  GetAnalyticsData := fun s afID req => (s, s.GetAnalyticsData afID req)

end storage

namespace http

def StatusOK : Nat := 200
def StatusCreated : Nat := 201
def StatusNoContent : Nat := 204
def StatusBadRequest : Nat := 400
def StatusNotFound : Nat := 404
def StatusConflict : Nat := 409
def StatusInternalServerError : Nat := 500

end http

namespace handlers

open models storage

/-- What a handler writes as the response body. -/
inductive Body where
  /-- The body of `c.NoContent`: nothing. -/
  | empty
  /-- The JSON object with the single key `error`. -/
  | error (msg : String)
  /-- A subscription value (`c.JSON(_, req)`). -/
  | subsc (s : AnalyticsExposureSubsc)
  /-- A subscription pointer as returned by the store (`c.JSON(_, sub)`). -/
  | subscPtr (p : SubscPtr)
  /-- A list of subscription pointers (`c.JSON(_, subs)`). -/
  | subscList (l : List SubscPtr)
  /-- An analytics snapshot (`c.JSON(_, data)` with `data` not `nil`). -/
  | data (d : AnalyticsData)
  deriving DecidableEq, Repr

/-- The response a handler writes: status code, `Location` header if set, body. -/
structure Response where
  status : Nat
  location : Option String
  body : Body
  deriving DecidableEq, Repr

/-- Handler holds the dependencies for HTTP handlers. -/
structure Handler (σ : Type) where
  store : Store σ

/-- NewHandler creates a new handler. -/
def NewHandler {σ : Type} (store : Store σ) : Handler σ :=
  { store := store }

/-- GetSubscriptions retrieves all subscriptions for an AF. -/
def Handler.GetSubscriptions {σ : Type} (h : Handler σ) (st : σ) (afID : String) :
    σ × Response :=
  match h.store.GetAllSubscriptions st afID with
  | (st1, (_, some err)) =>
    (st1, { status := http.StatusInternalServerError, location := none, body := Body.error err })
  | (st1, (subs, none)) =>
    (st1, { status := http.StatusOK, location := none, body := Body.subscList subs })

/-- CreateSubscription creates a new subscription.  `bind` is the result of
`c.Bind(&req)` (`none` when it returns an error) and `uuid` is the string that
`uuid.New().String()` returns. -/
def Handler.CreateSubscription {σ : Type} (h : Handler σ) (st : σ) (afID : String)
    (bind : Option AnalyticsExposureSubsc) (uuid : String) : σ × Response :=
  match bind with
  | none =>
    (st, { status := http.StatusBadRequest, location := none,
           body := Body.error "Invalid request body" })
  | some req =>
    let subscriptionID := uuid
    if req.AnalyticsEventSubsc.length = 0 then
      (st, { status := http.StatusBadRequest, location := none,
             body := Body.error "analyEventsSubs is required" })
    else if req.NotifURI = "" then
      (st, { status := http.StatusBadRequest, location := none,
             body := Body.error "notifUri is required" })
    else if req.NotifID = "" then
      (st, { status := http.StatusBadRequest, location := none,
             body := Body.error "notifId is required" })
    else
      match h.store.CreateSubscription st afID subscriptionID (some req) with
      | (st1, some err) =>
        (st1, { status := http.StatusConflict, location := none, body := Body.error err })
      | (st1, none) =>
        (st1, { status := http.StatusCreated,
                location := some ("/" ++ afID ++ "/subscriptions/" ++ subscriptionID),
                body := Body.subsc req })

/-- GetSubscription retrieves a specific subscription. -/
def Handler.GetSubscription {σ : Type} (h : Handler σ) (st : σ)
    (afID subscriptionID : String) : σ × Response :=
  match h.store.GetSubscription st afID subscriptionID with
  | (st1, (_, some _)) =>
    (st1, { status := http.StatusNotFound, location := none,
            body := Body.error "Subscription not found" })
  | (st1, (sub, none)) =>
    (st1, { status := http.StatusOK, location := none, body := Body.subscPtr sub })

/-- UpdateSubscription updates an existing subscription. -/
def Handler.UpdateSubscription {σ : Type} (h : Handler σ) (st : σ)
    (afID subscriptionID : String) (bind : Option AnalyticsExposureSubsc) : σ × Response :=
  match bind with
  | none =>
    (st, { status := http.StatusBadRequest, location := none,
           body := Body.error "Invalid request body" })
  | some req =>
    if req.AnalyticsEventSubsc.length = 0 then
      (st, { status := http.StatusBadRequest, location := none,
             body := Body.error "analyEventsSubs is required" })
    else if req.NotifURI = "" then
      (st, { status := http.StatusBadRequest, location := none,
             body := Body.error "notifUri is required" })
    else if req.NotifID = "" then
      (st, { status := http.StatusBadRequest, location := none,
             body := Body.error "notifId is required" })
    else
      match h.store.UpdateSubscription st afID subscriptionID (some req) with
      | (st1, some _) =>
        (st1, { status := http.StatusNotFound, location := none,
                body := Body.error "Subscription not found" })
      | (st1, none) =>
        (st1, { status := http.StatusOK, location := none, body := Body.subsc req })

/-- DeleteSubscription deletes a subscription. -/
def Handler.DeleteSubscription {σ : Type} (h : Handler σ) (st : σ)
    (afID subscriptionID : String) : σ × Response :=
  match h.store.DeleteSubscription st afID subscriptionID with
  | (st1, some _) =>
    (st1, { status := http.StatusNotFound, location := none,
            body := Body.error "Subscription not found" })
  | (st1, none) =>
    (st1, { status := http.StatusNoContent, location := none, body := Body.empty })

/-- FetchAnalyticsData fetches analytics information. -/
def Handler.FetchAnalyticsData {σ : Type} (h : Handler σ) (st : σ) (afID : String)
    (bind : Option AnalyticsRequest) : σ × Response :=
  match bind with
  | none =>
    (st, { status := http.StatusBadRequest, location := none,
           body := Body.error "Invalid request body" })
  | some req =>
    if req.SuppFeat = "" then
      (st, { status := http.StatusBadRequest, location := none,
             body := Body.error "suppFeat is required" })
    else
      match h.store.GetAnalyticsData st afID req with
      | (st1, (_, some err)) =>
        (st1, { status := http.StatusInternalServerError, location := none,
                body := Body.error err })
      | (st1, (none, none)) =>
        (st1, { status := http.StatusNoContent, location := none, body := Body.empty })
      | (st1, (some data, none)) =>
        (st1, { status := http.StatusOK, location := none, body := Body.data data })

/-- The three requests of `cmd/server/main.go` that write to the registry:
`POST /:afId/subscriptions`, `PUT /:afId/subscriptions/:subscriptionId` and
`DELETE /:afId/subscriptions/:subscriptionId`, each with what the handler reads
from the request (and, for a create, the generated id). -/
inductive WriteRequest where
  | post (afID : String) (bind : Option AnalyticsExposureSubsc) (uuid : String)
  | put (afID subscriptionID : String) (bind : Option AnalyticsExposureSubsc)
  | delete (afID subscriptionID : String)

/-- The route table of `main.go`, restricted to the writing requests. -/
def Handler.serve {σ : Type} (h : Handler σ) (st : σ) : WriteRequest → σ × Response
  | WriteRequest.post afID bind uuid => h.CreateSubscription st afID bind uuid
  | WriteRequest.put afID subscriptionID bind => h.UpdateSubscription st afID subscriptionID bind
  | WriteRequest.delete afID subscriptionID => h.DeleteSubscription st afID subscriptionID

/-- The store state after serving a list of requests one after the other. -/
def Handler.serveAll {σ : Type} (h : Handler σ) (st : σ) : List WriteRequest → σ
  | [] => st
  | r :: rs => h.serveAll (h.serve st r).1 rs

/-- The server of `main.go`: the handlers over a fresh in-memory store. -/
def server : Handler InMemoryStore := NewHandler InMemoryStore.asStore

end handlers

/-! ## Vocabulary of the properties -/

namespace storage

open models

/-- The error value of `errors.New("subscription not found")`. -/
def errNotFound : GoError := some "subscription not found"

/-- The error value of `errors.New("subscription already exists")`. -/
def errAlreadyExists : GoError := some "subscription already exists"

/-- No subscription is stored under `(afID, subscriptionID)`: the owner has no
inner map, or the owner's inner map has no such id. -/
def InMemoryStore.Absent (s : InMemoryStore) (afID subscriptionID : String) : Prop :=
  match s.subscriptions.lookup afID with
  | none => True
  | some afSubs => afSubs.lookup subscriptionID = none

instance (s : InMemoryStore) (afID subscriptionID : String) :
    Decidable (s.Absent afID subscriptionID) := by
  unfold InMemoryStore.Absent
  cases s.subscriptions.lookup afID with
  | none => exact isTrue trivial
  | some afSubs => exact inferInstanceAs (Decidable (afSubs.lookup subscriptionID = none))

/-- One call of a writing method of the store, with its arguments. -/
inductive WriteCall where
  | create (afID subscriptionID : String) (subsc : SubscPtr)
  | update (afID subscriptionID : String) (subsc : SubscPtr)
  | delete (afID subscriptionID : String)

/-- Performs one writing call on the store. -/
def InMemoryStore.call (s : InMemoryStore) : WriteCall → InMemoryStore × GoError
  | WriteCall.create afID subscriptionID subsc => s.CreateSubscription afID subscriptionID subsc
  | WriteCall.update afID subscriptionID subsc => s.UpdateSubscription afID subscriptionID subsc
  | WriteCall.delete afID subscriptionID => s.DeleteSubscription afID subscriptionID

/-- The stored pointer is not `nil` and the subscription it points to has a
non-empty event-subscription list, a non-empty notifUri and a non-empty notifId. -/
def WellFormed : SubscPtr → Prop
  | none => False
  | some subsc => subsc.AnalyticsEventSubsc ≠ [] ∧ subsc.NotifURI ≠ "" ∧ subsc.NotifID ≠ ""

instance : DecidablePred WellFormed := fun p =>
  match p with
  | none => isFalse (fun h => h)
  | some subsc =>
    inferInstanceAs
      (Decidable (subsc.AnalyticsEventSubsc ≠ [] ∧ subsc.NotifURI ≠ "" ∧ subsc.NotifID ≠ ""))

/-- Every stored subscription is well formed. -/
def InMemoryStore.AllWellFormed (s : InMemoryStore) : Prop :=
  ∀ afID afSubs, s.subscriptions.lookup afID = some afSubs →
    ∀ subscriptionID p, afSubs.lookup subscriptionID = some p → WellFormed p

/-- The owner a writing call is addressed to. -/
def WriteCall.afID : WriteCall → String
  | WriteCall.create afID _ _ => afID
  | WriteCall.update afID _ _ => afID
  | WriteCall.delete afID _ => afID

/-- The subscription id a writing call is addressed to. -/
def WriteCall.subscriptionID : WriteCall → String
  | WriteCall.create _ subscriptionID _ => subscriptionID
  | WriteCall.update _ subscriptionID _ => subscriptionID
  | WriteCall.delete _ subscriptionID => subscriptionID

/-- The ids stored under an owner: the keys of the owner's inner map, in the
order in which `GetAllSubscriptions` iterates over it. -/
def InMemoryStore.storedIDs (s : InMemoryStore) (afID : String) : List String :=
  match s.subscriptions.lookup afID with
  | some afSubs => afSubs.keys
  | none => []

/-- Calls `CreateSubscription` for one owner once per `(id, subscription)` pair
of the list, one call after the other; returns the final state and the error
of each call, in order. -/
def InMemoryStore.createAll (s : InMemoryStore) (afID : String) :
    List (String × SubscPtr) → InMemoryStore × List GoError
  | [] => (s, [])
  | c :: cs =>
    let r := s.CreateSubscription afID c.1 c.2
    let rest := r.1.createAll afID cs
    (rest.1, r.2 :: rest.2)

end storage

namespace samples

open models storage

/-- A subscription to one UE_MOBILITY event. -/
def subscA : AnalyticsExposureSubsc :=
  { AnalyticsEventSubsc := [{ AnalyticsEvent := UE_MOBILITY, EventFilter := none, TargetUE := none }],
    AnalyticsRepInfo := none, NotifURI := "http://af.example/notify", NotifID := "n-1",
    EventNotifications := [], SuppFeat := none }

/-- A subscription to one CONGESTION event, differing from `subscA` in every set field. -/
def subscB : AnalyticsExposureSubsc :=
  { AnalyticsEventSubsc := [{ AnalyticsEvent := CONGESTION, EventFilter := none, TargetUE := none }],
    AnalyticsRepInfo := some { MaxReportNbr := 5, Interval := 60 },
    NotifURI := "http://af.example/other", NotifID := "n-2",
    EventNotifications := [], SuppFeat := some "1" }

/-- The store after `af1` created `subscA` under the id `sub-1`. -/
def storeA : InMemoryStore :=
  (NewInMemoryStore.CreateSubscription "af1" "sub-1" (some subscA)).1

/-- A query for a given event type with `suppFeat` set to `"1"`. -/
def query (ev : AnalyticsEvent) : AnalyticsRequest :=
  { AnalyticsEvent := ev, EventFilter := none, ReportingInfo := none, TargetUE := none,
    SuppFeat := "1" }

end samples

/-! ## Lemmas on the store -/

namespace storage

open models

/-- The inner map of an owner after a create that returned no error. -/
theorem create_lookup (s : InMemoryStore) (afID subscriptionID : String) (subsc : SubscPtr)
    (h : (s.CreateSubscription afID subscriptionID subsc).2 = none) :
    (s.CreateSubscription afID subscriptionID subsc).1.subscriptions.lookup afID =
      some (((s.subscriptions.lookup afID).getD ∅).insert subscriptionID subsc) := by
  unfold InMemoryStore.CreateSubscription at h ⊢
  cases hl : s.subscriptions.lookup afID with
  | none =>
    simp only [hl, Option.isSome_none, Bool.false_eq_true, if_false, AList.lookup_insert,
      Option.getD_some, AList.lookup_empty, Option.getD_none]
  | some afSubs =>
    simp only [hl, Option.isSome_some, if_true, Option.getD_some] at h ⊢
    by_cases hi : (afSubs.lookup subscriptionID).isSome
    · simp [hi] at h
    · simp only [hi, Bool.false_eq_true, if_false, AList.lookup_insert]

/-- A create that returns an error leaves the state as it was. -/
theorem create_err_state (s : InMemoryStore) (afID subscriptionID : String) (subsc : SubscPtr)
    (h : (s.CreateSubscription afID subscriptionID subsc).2 ≠ none) :
    (s.CreateSubscription afID subscriptionID subsc).1 = s := by
  unfold InMemoryStore.CreateSubscription at h ⊢
  cases hl : s.subscriptions.lookup afID with
  | none =>
    simp [hl, AList.lookup_insert, AList.lookup_empty] at h
  | some afSubs =>
    simp only [hl, Option.isSome_some, if_true, Option.getD_some] at h ⊢
    by_cases hi : (afSubs.lookup subscriptionID).isSome
    · simp [hi]
    · simp [hi] at h

end storage

namespace storage

open models

/-- The error of an update is the error of a get on the same state and key. -/
theorem update_err_eq_get (s : InMemoryStore) (afID subscriptionID : String) (subsc : SubscPtr) :
    (s.UpdateSubscription afID subscriptionID subsc).2 =
      (s.GetSubscription afID subscriptionID).2 := by
  unfold InMemoryStore.UpdateSubscription InMemoryStore.GetSubscription
  cases hl : s.subscriptions.lookup afID with
  | none => rfl
  | some afSubs =>
    cases hi : afSubs.lookup subscriptionID with
    | none => simp [hi]
    | some p => simp [hi]

/-- The error of a delete is the error of a get on the same state and key. -/
theorem delete_err_eq_get (s : InMemoryStore) (afID subscriptionID : String) :
    (s.DeleteSubscription afID subscriptionID).2 = (s.GetSubscription afID subscriptionID).2 := by
  unfold InMemoryStore.DeleteSubscription InMemoryStore.GetSubscription
  cases hl : s.subscriptions.lookup afID with
  | none => rfl
  | some afSubs =>
    cases hi : afSubs.lookup subscriptionID with
    | none => simp [hi]
    | some p => simp [hi]

/-- An update that returns an error leaves the state as it was. -/
theorem update_err_state (s : InMemoryStore) (afID subscriptionID : String) (subsc : SubscPtr)
    (h : (s.UpdateSubscription afID subscriptionID subsc).2 ≠ none) :
    (s.UpdateSubscription afID subscriptionID subsc).1 = s := by
  unfold InMemoryStore.UpdateSubscription at h ⊢
  cases hl : s.subscriptions.lookup afID with
  | none => rfl
  | some afSubs =>
    simp only [hl] at h ⊢
    by_cases hi : (afSubs.lookup subscriptionID).isSome
    · simp [hi] at h
    · simp [hi]

/-- A delete that returns an error leaves the state as it was. -/
theorem delete_err_state (s : InMemoryStore) (afID subscriptionID : String)
    (h : (s.DeleteSubscription afID subscriptionID).2 ≠ none) :
    (s.DeleteSubscription afID subscriptionID).1 = s := by
  unfold InMemoryStore.DeleteSubscription at h ⊢
  cases hl : s.subscriptions.lookup afID with
  | none => rfl
  | some afSubs =>
    simp only [hl] at h ⊢
    by_cases hi : (afSubs.lookup subscriptionID).isSome
    · simp [hi] at h
    · simp [hi]

/-- A get that returns no error found the returned pointer in the owner's inner map. -/
theorem get_ok_lookup (s : InMemoryStore) (afID subscriptionID : String) (p : SubscPtr)
    (h : s.GetSubscription afID subscriptionID = (p, none)) :
    ∃ afSubs, s.subscriptions.lookup afID = some afSubs ∧
      afSubs.lookup subscriptionID = some p := by
  unfold InMemoryStore.GetSubscription at h
  cases hl : s.subscriptions.lookup afID with
  | none => simp [hl] at h
  | some afSubs =>
    cases hi : afSubs.lookup subscriptionID with
    | none => simp [hl, hi] at h
    | some q =>
      simp only [hl, hi, Prod.mk.injEq, and_true] at h
      exact ⟨afSubs, rfl, by rw [hi, h]⟩

/-- A get reads the owner's inner map. -/
theorem get_of_lookup (s : InMemoryStore) (afID subscriptionID : String)
    (afSubs : GoMap SubscPtr) (p : SubscPtr)
    (hl : s.subscriptions.lookup afID = some afSubs)
    (hi : afSubs.lookup subscriptionID = some p) :
    s.GetSubscription afID subscriptionID = (p, none) := by
  unfold InMemoryStore.GetSubscription
  simp only [hl, hi]

end storage

/-! ## The claims -/

open models storage handlers

/-- C1 (as amended): for every store state, owner, id and subscription pointer
`subsc`, if `CreateSubscription` returns no error then `GetSubscription` on the
resulting state returns no error and returns exactly `subsc`, every field
unchanged.  The value has no id field: the id is only the key. -/
theorem C1_get_after_create (st : InMemoryStore) (afID subscriptionID : String)
    (subsc : SubscPtr)
    (h : (st.CreateSubscription afID subscriptionID subsc).2 = none) :
    (st.CreateSubscription afID subscriptionID subsc).1.GetSubscription afID subscriptionID =
      (subsc, none) := by
  apply get_of_lookup _ _ _ _ _ (create_lookup st afID subscriptionID subsc h)
  exact AList.lookup_insert _

/-- Witness of C1: the amended statement on the empty store. -/
theorem C1_get_after_create_witness :
    (NewInMemoryStore.CreateSubscription "af1" "sub-1" (some samples.subscA)).2 = none ∧
    (NewInMemoryStore.CreateSubscription "af1" "sub-1" (some samples.subscA)).1.GetSubscription
      "af1" "sub-1" = (some samples.subscA, none) :=
  ⟨by decide, C1_get_after_create NewInMemoryStore "af1" "sub-1" (some samples.subscA) (by decide)⟩

/-- C1 (counterexample): the value that `GetSubscription` returns after a
successful create does not carry the id.  No function reads the id off the
returned value: the same subscription created under `sub-1` and under `sub-2`
is returned as the same value by both gets. -/
theorem C1_id_not_populated :
    ¬ ∃ idOf : AnalyticsExposureSubsc → String,
      ∀ (st : InMemoryStore) (afID subscriptionID : String) (subsc : AnalyticsExposureSubsc),
        (st.CreateSubscription afID subscriptionID (some subsc)).2 = none →
        ∃ v, (st.CreateSubscription afID subscriptionID (some subsc)).1.GetSubscription
              afID subscriptionID = (some v, none) ∧ v = subsc ∧ idOf v = subscriptionID := by
  rintro ⟨idOf, hid⟩
  obtain ⟨v1, _, hv1, h1⟩ := hid NewInMemoryStore "af1" "sub-1" samples.subscA (by decide)
  obtain ⟨v2, _, hv2, h2⟩ := hid NewInMemoryStore "af1" "sub-2" samples.subscA (by decide)
  rw [hv1] at h1
  rw [hv2, h1] at h2
  exact absurd h2 (by decide)

/-- C2: in a state where `GetSubscription(o, i)` returns a stored subscription,
`UpdateSubscription(o, i, s2)` returns no error and `GetSubscription(o, i)` on
the resulting state returns exactly `s2`, whatever was stored before. -/
theorem C2_update_replaces (st : InMemoryStore) (afID subscriptionID : String)
    (s s2 : SubscPtr) (h : st.GetSubscription afID subscriptionID = (s, none)) :
    (st.UpdateSubscription afID subscriptionID s2).2 = none ∧
    (st.UpdateSubscription afID subscriptionID s2).1.GetSubscription afID subscriptionID =
      (s2, none) := by
  obtain ⟨afSubs, hl, hi⟩ := get_ok_lookup st afID subscriptionID s h
  unfold InMemoryStore.UpdateSubscription
  simp only [hl, hi, Option.isSome_some, if_true, true_and]
  exact get_of_lookup _ _ _ _ _ (AList.lookup_insert _) (AList.lookup_insert _)

/-- Witness of C2: replacing `subscA` by `subscB`, which differs in every set field. -/
theorem C2_update_replaces_witness :
    samples.storeA.GetSubscription "af1" "sub-1" = (some samples.subscA, none) ∧
    (samples.storeA.UpdateSubscription "af1" "sub-1" (some samples.subscB)).2 = none ∧
    (samples.storeA.UpdateSubscription "af1" "sub-1" (some samples.subscB)).1.GetSubscription
      "af1" "sub-1" = (some samples.subscB, none) :=
  ⟨by decide,
   C2_update_replaces samples.storeA "af1" "sub-1" (some samples.subscA) (some samples.subscB)
     (by decide)⟩

/-- C3: after a `CreateSubscription(o, i, s)` that returned no error, a
`DeleteSubscription(o, i)` returns no error, and `GetSubscription(o, i)` on the
state it leaves fails with the not-found error (and returns the nil pointer). -/
theorem C3_create_delete_get (st : InMemoryStore) (afID subscriptionID : String)
    (subsc : SubscPtr)
    (h : (st.CreateSubscription afID subscriptionID subsc).2 = none) :
    ((st.CreateSubscription afID subscriptionID subsc).1.DeleteSubscription
        afID subscriptionID).2 = none ∧
    ((st.CreateSubscription afID subscriptionID subsc).1.DeleteSubscription
        afID subscriptionID).1.GetSubscription afID subscriptionID = (none, errNotFound) := by
  have hl := create_lookup st afID subscriptionID subsc h
  unfold InMemoryStore.DeleteSubscription
  simp only [hl, AList.lookup_insert, Option.isSome_some, if_true, true_and]
  unfold InMemoryStore.GetSubscription
  simp only [AList.lookup_insert, AList.lookup_erase]
  rfl

/-- Witness of C3: create, delete and get on the empty store. -/
theorem C3_create_delete_get_witness :
    (NewInMemoryStore.CreateSubscription "af1" "sub-1" (some samples.subscA)).2 = none ∧
    ((NewInMemoryStore.CreateSubscription "af1" "sub-1" (some samples.subscA)).1.DeleteSubscription
        "af1" "sub-1").2 = none ∧
    ((NewInMemoryStore.CreateSubscription "af1" "sub-1" (some samples.subscA)).1.DeleteSubscription
        "af1" "sub-1").1.GetSubscription "af1" "sub-1" = (none, errNotFound) :=
  ⟨by decide, C3_create_delete_get NewInMemoryStore "af1" "sub-1" (some samples.subscA) (by decide)⟩

/-- C4: `GetSubscription(o, i)` fails with the not-found error exactly when no
subscription is stored under `(o, i)` (owner absent, or owner present and id
absent); `UpdateSubscription(o, i, _)` and `DeleteSubscription(o, i)` on the
same state fail with the not-found error in exactly those cases; and all three
return no error exactly in the other cases. -/
theorem C4_not_found_cases (st : InMemoryStore) (afID subscriptionID : String)
    (subsc : SubscPtr) :
    ((st.GetSubscription afID subscriptionID).2 = errNotFound ↔
      st.Absent afID subscriptionID) ∧
    ((st.UpdateSubscription afID subscriptionID subsc).2 = errNotFound ↔
      st.Absent afID subscriptionID) ∧
    ((st.DeleteSubscription afID subscriptionID).2 = errNotFound ↔
      st.Absent afID subscriptionID) ∧
    (((st.GetSubscription afID subscriptionID).2 = none ∧
        (st.UpdateSubscription afID subscriptionID subsc).2 = none ∧
        (st.DeleteSubscription afID subscriptionID).2 = none) ↔
      ¬ st.Absent afID subscriptionID) := by
  rw [update_err_eq_get, delete_err_eq_get]
  have key : ((st.GetSubscription afID subscriptionID).2 = errNotFound ↔
        st.Absent afID subscriptionID) ∧
      ((st.GetSubscription afID subscriptionID).2 = none ↔
        ¬ st.Absent afID subscriptionID) := by
    unfold InMemoryStore.GetSubscription InMemoryStore.Absent errNotFound
    cases hl : st.subscriptions.lookup afID with
    | none => simp
    | some afSubs =>
      cases hi : afSubs.lookup subscriptionID with
      | none => simp [hi]
      | some p => simp [hi]
  refine ⟨key.1, key.1, key.1, ?_⟩
  rw [← key.2]
  constructor
  · intro h
    exact h.1
  · intro h
    exact ⟨h, h, h⟩

/-- C5: a `CreateSubscription`, `UpdateSubscription` or `DeleteSubscription`
call that returns an error leaves the store as it was: the state is the same,
so `GetSubscription` for every owner and id and `GetAllSubscriptions` for every
owner return what they returned before the call. -/
theorem C5_failed_call_no_change (st : InMemoryStore) (c : WriteCall)
    (h : (st.call c).2 ≠ none) :
    (st.call c).1 = st ∧
    (∀ afID subscriptionID,
      (st.call c).1.GetSubscription afID subscriptionID =
        st.GetSubscription afID subscriptionID) ∧
    (∀ afID, (st.call c).1.GetAllSubscriptions afID = st.GetAllSubscriptions afID) := by
  have hst : (st.call c).1 = st := by
    cases c with
    | create afID subscriptionID subsc => exact create_err_state st afID subscriptionID subsc h
    | update afID subscriptionID subsc => exact update_err_state st afID subscriptionID subsc h
    | delete afID subscriptionID => exact delete_err_state st afID subscriptionID h
  refine ⟨hst, ?_, ?_⟩
  · intro afID subscriptionID
    rw [hst]
  · intro afID
    rw [hst]

/-- Witness of C5: a create on a taken key, and an update and a delete on a
missing key, each returning an error. -/
theorem C5_failed_call_no_change_witness :
    ((samples.storeA.call (WriteCall.create "af1" "sub-1" (some samples.subscB))).2 ≠ none ∧
      (samples.storeA.call (WriteCall.create "af1" "sub-1" (some samples.subscB))).1 =
        samples.storeA) ∧
    ((samples.storeA.call (WriteCall.update "af1" "sub-2" (some samples.subscB))).2 ≠ none ∧
      (samples.storeA.call (WriteCall.update "af1" "sub-2" (some samples.subscB))).1 =
        samples.storeA) ∧
    ((samples.storeA.call (WriteCall.delete "af2" "sub-1")).2 ≠ none ∧
      (samples.storeA.call (WriteCall.delete "af2" "sub-1")).1 = samples.storeA) :=
  ⟨⟨by decide,
    (C5_failed_call_no_change samples.storeA
      (WriteCall.create "af1" "sub-1" (some samples.subscB)) (by decide)).1⟩,
   ⟨by decide,
    (C5_failed_call_no_change samples.storeA
      (WriteCall.update "af1" "sub-2" (some samples.subscB)) (by decide)).1⟩,
   ⟨by decide,
    (C5_failed_call_no_change samples.storeA (WriteCall.delete "af2" "sub-1") (by decide)).1⟩⟩

/-- C6: for a request whose event-subscription list is empty, or whose notifUri
is empty, or whose notifId is empty, the Create handler answers 400 with an
error body and returns the store state it was given.  The answer is the same
for every implementation of the Store interface, so no method of the store is
invoked; in particular no entry is created. -/
theorem C6_create_rejects_invalid {σ : Type} (st : σ) (afID uuid : String)
    (req : AnalyticsExposureSubsc)
    (hbad : req.AnalyticsEventSubsc = [] ∨ req.NotifURI = "" ∨ req.NotifID = "") :
    ∃ msg, ∀ h : Handler σ,
      h.CreateSubscription st afID (some req) uuid =
        (st, { status := http.StatusBadRequest, location := none, body := Body.error msg }) := by
  unfold Handler.CreateSubscription
  by_cases h1 : req.AnalyticsEventSubsc.length = 0
  · exact ⟨"analyEventsSubs is required", fun h => by simp [h1]⟩
  · by_cases h2 : req.NotifURI = ""
    · exact ⟨"notifUri is required", fun h => by simp [h1, h2]⟩
    · by_cases h3 : req.NotifID = ""
      · exact ⟨"notifId is required", fun h => by simp [h1, h2, h3]⟩
      · exfalso
        rcases hbad with hb | hb | hb
        · exact h1 (by rw [hb]; rfl)
        · exact h2 hb
        · exact h3 hb

/-- Witness of C6: a request with an empty notifUri, on the in-memory store
that holds one subscription. -/
theorem C6_create_rejects_invalid_witness :
    ∃ msg, ∀ h : Handler InMemoryStore,
      h.CreateSubscription samples.storeA "af1"
          (some { samples.subscB with NotifURI := "" }) "sub-2" =
        (samples.storeA,
          { status := http.StatusBadRequest, location := none, body := Body.error msg }) :=
  C6_create_rejects_invalid samples.storeA "af1" "sub-2"
    { samples.subscB with NotifURI := "" } (Or.inr (Or.inl rfl))

/-- A map in which no key is found has no entry. -/
theorem GoMap_entries_nil {V : Type} (m : GoMap V) (h : ∀ k, m.lookup k = none) :
    m.entries = [] := by
  rcases m with ⟨l, nd⟩
  cases l with
  | nil => rfl
  | cons e tl =>
    rcases e with ⟨k, v⟩
    have hk := h k
    simp [AList.lookup, List.dlookup_cons_eq] at hk

/-- C7: `GetAllSubscriptions(o)` never returns an error; it returns the empty
list when `o` is unknown to the store, and when `o` owns no subscription, that
is when `GetSubscription(o, i)` fails for every id `i` (as it does for an owner
whose subscriptions have all been deleted). -/
theorem C7_list_empty_no_error (st : InMemoryStore) (afID : String) :
    (st.GetAllSubscriptions afID).2 = none ∧
    (st.subscriptions.lookup afID = none → (st.GetAllSubscriptions afID).1 = []) ∧
    ((∀ subscriptionID, (st.GetSubscription afID subscriptionID).2 ≠ none) →
      (st.GetAllSubscriptions afID).1 = []) := by
  unfold InMemoryStore.GetAllSubscriptions InMemoryStore.GetSubscription
  cases hl : st.subscriptions.lookup afID with
  | none => simp
  | some afSubs =>
    refine ⟨rfl, fun h => by simp at h, fun h => ?_⟩
    have hnone : ∀ k, afSubs.lookup k = none := by
      intro k
      cases hk : afSubs.lookup k with
      | none => rfl
      | some p =>
        have := h k
        simp [hk] at this
    simp [GoMap_entries_nil afSubs hnone]

/-- Witness of C7: an owner never seen by the store, and the owner `af1` after
its only subscription was deleted. -/
theorem C7_list_empty_no_error_witness :
    samples.storeA.GetAllSubscriptions "af2" = ([], none) ∧
    (samples.storeA.DeleteSubscription "af1" "sub-1").1.GetAllSubscriptions "af1" = ([], none) :=
  ⟨Prod.ext
     ((C7_list_empty_no_error samples.storeA "af2").2.1 (by decide))
     (C7_list_empty_no_error samples.storeA "af2").1,
   Prod.ext
     ((C7_list_empty_no_error (samples.storeA.DeleteSubscription "af1" "sub-1").1 "af1").2.2
       (fun subscriptionID => by
         have hl : (samples.storeA.DeleteSubscription "af1" "sub-1").1.subscriptions.lookup "af1" =
             some ∅ := rfl
         unfold InMemoryStore.GetSubscription
         simp [hl, AList.lookup_empty]))
     (C7_list_empty_no_error (samples.storeA.DeleteSubscription "af1" "sub-1").1 "af1").1⟩

/-- The `float32` written `0.95` in the source is the binary32 value nearest to
95/100: it is within half a unit in the last place (`2^-25`) of it. -/
theorem lit_0_95_nearest :
    |GoFloat32.lit_0_95.toRat - 95 / 100| ≤ 1 / 2 ^ 25 := by
  have h : GoFloat32.lit_0_95.toRat = 15938355 / 16777216 := by
    simp only [GoFloat32.toRat, GoFloat32.lit_0_95]
    norm_num
  rw [h, abs_le]
  constructor <;> norm_num

/-- C8: for every request `r`, `GetAnalyticsData` returns no error and a
snapshot whose suppFeat is `r.SuppFeat`, whose communication, abnormal,
congestion and QoS lists are empty, whose mobility list is the single record
(duration 3600, locations area1 and area2, other fields zero) when the event is
UE_MOBILITY and empty otherwise, and whose network-performance list is the
single record (location area area1, type THROUGHPUT, relative ratio the float32
`0.95`, other fields zero) when the event is NETWORK_PERFORMANCE and empty
otherwise.  So for every other event type every list is empty. -/
theorem C8_query_snapshot (st : InMemoryStore) (afID : String) (r : AnalyticsRequest) :
    (st.GetAnalyticsData afID r).2 = none ∧
    ∃ d, (st.GetAnalyticsData afID r).1 = some d ∧
      d.SuppFeat = some r.SuppFeat ∧
      d.UECommunicationInfos = [] ∧ d.AbnormalInfos = [] ∧
      d.CongestionInfos = [] ∧ d.QoSSustainInfos = [] ∧
      d.UEMobilityInfos =
        (if r.AnalyticsEvent = UE_MOBILITY then
          [{ Timestamp := Time.zero, Duration := 3600, DurationVariance := GoFloat32.zero,
             LocationInfo := ["area1", "area2"], Ratio := GoFloat32.zero, Confidence := 0 }]
         else []) ∧
      d.NetworkPerfInfos =
        (if r.AnalyticsEvent = NETWORK_PERFORMANCE then
          [{ LocationArea := "area1", NetworkPerfType := "THROUGHPUT",
             RelativeRatio := GoFloat32.lit_0_95, AbsoluteNum := 0, Confidence := 0 }]
         else []) ∧
      |GoFloat32.lit_0_95.toRat - 95 / 100| ≤ 1 / 2 ^ 25 := by
  have hmn : ¬ UE_MOBILITY = NETWORK_PERFORMANCE := by decide
  refine ⟨rfl, ?_⟩
  unfold InMemoryStore.GetAnalyticsData
  by_cases h1 : r.AnalyticsEvent = UE_MOBILITY
  · have h2 : ¬ r.AnalyticsEvent = NETWORK_PERFORMANCE := by
      rw [h1]
      exact hmn
    simp only [if_pos h1, if_neg h2]
    exact ⟨_, rfl, rfl, rfl, rfl, rfl, rfl, rfl, rfl, lit_0_95_nearest⟩
  · by_cases h2 : r.AnalyticsEvent = NETWORK_PERFORMANCE
    · simp only [if_neg h1, if_pos h2]
      exact ⟨_, rfl, rfl, rfl, rfl, rfl, rfl, rfl, rfl, lit_0_95_nearest⟩
    · simp only [if_neg h1, if_neg h2]
      exact ⟨_, rfl, rfl, rfl, rfl, rfl, rfl, rfl, rfl, lit_0_95_nearest⟩

/-- C9 (as amended): for every analytics query with a non-empty suppFeat and
an event type other than UE_MOBILITY and NETWORK_PERFORMANCE, `GetAnalyticsData`
returns no error, and `FetchAnalyticsData` over the in-memory store answers
200 OK with the snapshot as body (every list empty, suppFeat echoed) and leaves
the store as it was; the answer is not the no-content response. -/
theorem C9_fetch_empty_snapshot_ok (st : InMemoryStore) (afID : String)
    (req : AnalyticsRequest) (hsf : req.SuppFeat ≠ "")
    (h1 : req.AnalyticsEvent ≠ UE_MOBILITY) (h2 : req.AnalyticsEvent ≠ NETWORK_PERFORMANCE) :
    (st.GetAnalyticsData afID req).2 = none ∧
    server.FetchAnalyticsData st afID (some req) =
      (st, { status := http.StatusOK, location := none,
             body := Body.data
               { UEMobilityInfos := [], UECommunicationInfos := [], NetworkPerfInfos := [],
                 AbnormalInfos := [], CongestionInfos := [], QoSSustainInfos := [],
                 SuppFeat := some req.SuppFeat } }) ∧
    (server.FetchAnalyticsData st afID (some req)).2.status ≠ http.StatusNoContent := by
  refine ⟨rfl, ?_, ?_⟩ <;>
    simp [Handler.FetchAnalyticsData, server, NewHandler, InMemoryStore.asStore,
      InMemoryStore.GetAnalyticsData, hsf, h1, h2, http.StatusOK, http.StatusNoContent]

/-- Witness of C9: a UE_COMM query with suppFeat `"1"`. -/
theorem C9_fetch_empty_snapshot_ok_witness :
    (NewInMemoryStore.GetAnalyticsData "af1" (samples.query UE_COMM)).2 = none ∧
    server.FetchAnalyticsData NewInMemoryStore "af1" (some (samples.query UE_COMM)) =
      (NewInMemoryStore,
        { status := http.StatusOK, location := none,
          body := Body.data
            { UEMobilityInfos := [], UECommunicationInfos := [], NetworkPerfInfos := [],
              AbnormalInfos := [], CongestionInfos := [], QoSSustainInfos := [],
              SuppFeat := some "1" } }) ∧
    (server.FetchAnalyticsData NewInMemoryStore "af1"
      (some (samples.query UE_COMM))).2.status ≠ http.StatusNoContent :=
  C9_fetch_empty_snapshot_ok NewInMemoryStore "af1" (samples.query UE_COMM)
    (by decide) (by decide) (by decide)

/-- C9 (counterexample): a UE_COMM query with suppFeat `"1"` passes validation
and its snapshot carries no record, yet `FetchAnalyticsData` answers 200 OK with
a data body, not 204 No Content with an empty body. -/
theorem C9_no_content_counterexample :
    (samples.query UE_COMM).SuppFeat ≠ "" ∧
    (samples.query UE_COMM).AnalyticsEvent ≠ UE_MOBILITY ∧
    (samples.query UE_COMM).AnalyticsEvent ≠ NETWORK_PERFORMANCE ∧
    (server.FetchAnalyticsData NewInMemoryStore "af1"
      (some (samples.query UE_COMM))).2.status = 200 ∧
    (server.FetchAnalyticsData NewInMemoryStore "af1"
      (some (samples.query UE_COMM))).2.status ≠ http.StatusNoContent ∧
    (server.FetchAnalyticsData NewInMemoryStore "af1"
      (some (samples.query UE_COMM))).2.body ≠ Body.empty := by
  decide

/-- Writing a well-formed inner map under an owner keeps every stored
subscription well formed. -/
theorem allWellFormed_insert (s : InMemoryStore) (hs : s.AllWellFormed) (afID : String)
    (inner : GoMap SubscPtr)
    (hin : ∀ subscriptionID p, inner.lookup subscriptionID = some p → WellFormed p) :
    InMemoryStore.AllWellFormed { s with subscriptions := s.subscriptions.insert afID inner } := by
  intro o afSubs hl i p hi
  by_cases ho : o = afID
  · subst ho
    rw [show ({ s with subscriptions := s.subscriptions.insert o inner } :
      InMemoryStore).subscriptions = s.subscriptions.insert o inner from rfl,
      AList.lookup_insert] at hl
    cases hl
    exact hin i p hi
  · rw [show ({ s with subscriptions := s.subscriptions.insert afID inner } :
      InMemoryStore).subscriptions = s.subscriptions.insert afID inner from rfl,
      AList.lookup_insert_ne ho] at hl
    exact hs o afSubs hl i p hi

/-- Adding a well-formed entry to a well-formed inner map. -/
theorem wellFormed_inner_insert (inner : GoMap SubscPtr)
    (hin : ∀ k p, inner.lookup k = some p → WellFormed p) (subscriptionID : String)
    (subsc : SubscPtr) (hw : WellFormed subsc) :
    ∀ k p, (inner.insert subscriptionID subsc).lookup k = some p → WellFormed p := by
  intro k p hk
  by_cases hki : k = subscriptionID
  · subst hki
    rw [AList.lookup_insert] at hk
    cases hk
    exact hw
  · rw [AList.lookup_insert_ne hki] at hk
    exact hin k p hk

/-- Removing an entry from a well-formed inner map. -/
theorem wellFormed_inner_erase (inner : GoMap SubscPtr)
    (hin : ∀ k p, inner.lookup k = some p → WellFormed p) (subscriptionID : String) :
    ∀ k p, (inner.erase subscriptionID).lookup k = some p → WellFormed p := by
  intro k p hk
  by_cases hki : k = subscriptionID
  · subst hki
    rw [AList.lookup_erase] at hk
    cases hk
  · rw [AList.lookup_erase_ne hki] at hk
    exact hin k p hk

/-- The store's create keeps the invariant when the new subscription is well formed. -/
theorem create_allWellFormed (s : InMemoryStore) (hs : s.AllWellFormed)
    (afID subscriptionID : String) (subsc : SubscPtr) (hw : WellFormed subsc) :
    (s.CreateSubscription afID subscriptionID subsc).1.AllWellFormed := by
  by_cases herr : (s.CreateSubscription afID subscriptionID subsc).2 = none
  · unfold InMemoryStore.CreateSubscription at herr ⊢
    cases hl : s.subscriptions.lookup afID with
    | none =>
      simp only [hl, Option.isSome_none, Bool.false_eq_true, if_false, AList.lookup_insert,
        Option.getD_some, AList.lookup_empty]
      have h1 := allWellFormed_insert s hs afID ∅ (fun k p hk => by
        rw [AList.lookup_empty] at hk
        cases hk)
      exact allWellFormed_insert _ h1 afID _
        (wellFormed_inner_insert ∅ (fun k p hk => by
          rw [AList.lookup_empty] at hk
          cases hk) subscriptionID subsc hw)
    | some afSubs =>
      simp only [hl, Option.isSome_some, if_true, Option.getD_some] at herr ⊢
      by_cases hi : (afSubs.lookup subscriptionID).isSome
      · simp [hi] at herr
      · simp only [hi, Bool.false_eq_true, if_false]
        exact allWellFormed_insert s hs afID _
          (wellFormed_inner_insert afSubs (hs afID afSubs hl) subscriptionID subsc hw)
  · rw [create_err_state s afID subscriptionID subsc herr]
    exact hs

/-- The store's update keeps the invariant when the new subscription is well formed. -/
theorem update_allWellFormed (s : InMemoryStore) (hs : s.AllWellFormed)
    (afID subscriptionID : String) (subsc : SubscPtr) (hw : WellFormed subsc) :
    (s.UpdateSubscription afID subscriptionID subsc).1.AllWellFormed := by
  unfold InMemoryStore.UpdateSubscription
  cases hl : s.subscriptions.lookup afID with
  | none => exact hs
  | some afSubs =>
    by_cases hi : (afSubs.lookup subscriptionID).isSome
    · simp only [hi, if_true]
      exact allWellFormed_insert s hs afID _
        (wellFormed_inner_insert afSubs (hs afID afSubs hl) subscriptionID subsc hw)
    · simp only [hi, Bool.false_eq_true, if_false]
      exact hs

/-- The store's delete keeps the invariant. -/
theorem delete_allWellFormed (s : InMemoryStore) (hs : s.AllWellFormed)
    (afID subscriptionID : String) :
    (s.DeleteSubscription afID subscriptionID).1.AllWellFormed := by
  unfold InMemoryStore.DeleteSubscription
  cases hl : s.subscriptions.lookup afID with
  | none => exact hs
  | some afSubs =>
    by_cases hi : (afSubs.lookup subscriptionID).isSome
    · simp only [hi, if_true]
      exact allWellFormed_insert s hs afID _
        (wellFormed_inner_erase afSubs (hs afID afSubs hl) subscriptionID)
    · simp only [hi, Bool.false_eq_true, if_false]
      exact hs

/-- Every writing request served over the in-memory store keeps the invariant. -/
theorem serve_allWellFormed (st : InMemoryStore) (hs : st.AllWellFormed) (r : WriteRequest) :
    (server.serve st r).1.AllWellFormed := by
  cases r with
  | post afID bind uuid =>
    cases bind with
    | none => exact hs
    | some req =>
      simp only [Handler.serve, Handler.CreateSubscription]
      by_cases h1 : req.AnalyticsEventSubsc.length = 0
      · simpa [h1] using hs
      · by_cases h2 : req.NotifURI = ""
        · simpa [h1, h2] using hs
        · by_cases h3 : req.NotifID = ""
          · simpa [h1, h2, h3] using hs
          · have hw : WellFormed (some req) :=
              ⟨fun h => h1 (by rw [h]; rfl), h2, h3⟩
            have hc := create_allWellFormed st hs afID uuid (some req) hw
            simp only [h1, h2, h3, if_false, server, NewHandler, InMemoryStore.asStore]
            cases hres : st.CreateSubscription afID uuid (some req) with
            | mk st1 err =>
              rw [hres] at hc
              cases err with
              | none => exact hc
              | some e => exact hc
  | put afID subscriptionID bind =>
    cases bind with
    | none => exact hs
    | some req =>
      simp only [Handler.serve, Handler.UpdateSubscription]
      by_cases h1 : req.AnalyticsEventSubsc.length = 0
      · simpa [h1] using hs
      · by_cases h2 : req.NotifURI = ""
        · simpa [h1, h2] using hs
        · by_cases h3 : req.NotifID = ""
          · simpa [h1, h2, h3] using hs
          · have hw : WellFormed (some req) :=
              ⟨fun h => h1 (by rw [h]; rfl), h2, h3⟩
            have hc := update_allWellFormed st hs afID subscriptionID (some req) hw
            simp only [h1, h2, h3, if_false, server, NewHandler, InMemoryStore.asStore]
            cases hres : st.UpdateSubscription afID subscriptionID (some req) with
            | mk st1 err =>
              rw [hres] at hc
              cases err with
              | none => exact hc
              | some e => exact hc
  | delete afID subscriptionID =>
    have hc := delete_allWellFormed st hs afID subscriptionID
    simp only [Handler.serve, Handler.DeleteSubscription, server, NewHandler,
      InMemoryStore.asStore]
    cases hres : st.DeleteSubscription afID subscriptionID with
    | mk st1 err =>
      rw [hres] at hc
      cases err with
      | none => exact hc
      | some e => exact hc

/-- Serving any list of writing requests keeps the invariant. -/
theorem serveAll_allWellFormed (reqs : List WriteRequest) :
    ∀ st : InMemoryStore, st.AllWellFormed → (server.serveAll st reqs).AllWellFormed := by
  induction reqs with
  | nil => intro st hs; exact hs
  | cons r rs ih =>
    intro st hs
    exact ih _ (serve_allWellFormed st hs r)

/-- The empty store holds no subscription, so all of them are well formed. -/
theorem new_allWellFormed : NewInMemoryStore.AllWellFormed := by
  intro afID afSubs hl
  simp [NewInMemoryStore, AList.lookup_empty] at hl

/-- C10: starting from the empty store, after any finite list of Create,
Update and Delete requests served by the handlers, whatever their payloads and
generated ids, every subscription that `GetSubscription` finds in the registry
is a non-nil pointer to a subscription with a non-empty event-subscription
list, a non-empty notifUri and a non-empty notifId. -/
theorem C10_stored_well_formed (reqs : List WriteRequest) (afID subscriptionID : String)
    (p : SubscPtr)
    (h : (server.serveAll NewInMemoryStore reqs).GetSubscription afID subscriptionID =
      (p, none)) :
    ∃ subsc, p = some subsc ∧ subsc.AnalyticsEventSubsc ≠ [] ∧ subsc.NotifURI ≠ "" ∧
      subsc.NotifID ≠ "" := by
  obtain ⟨afSubs, hl, hi⟩ := get_ok_lookup _ afID subscriptionID p h
  have hw : WellFormed p :=
    serveAll_allWellFormed reqs NewInMemoryStore new_allWellFormed afID afSubs hl
      subscriptionID p hi
  cases p with
  | none => exact absurd hw (fun h => h)
  | some subsc => exact ⟨subsc, rfl, hw⟩

/-- Witness of C10: a create, an update of it, a rejected create and a failed
delete; the subscription found afterwards is the updated one. -/
theorem C10_stored_well_formed_witness :
    (server.serveAll NewInMemoryStore
      [WriteRequest.post "af1" (some samples.subscA) "sub-1",
       WriteRequest.put "af1" "sub-1" (some samples.subscB),
       WriteRequest.post "af2" (some { samples.subscB with NotifID := "" }) "sub-9",
       WriteRequest.delete "af1" "sub-0"]).GetSubscription "af1" "sub-1" =
      (some samples.subscB, none) ∧
    ∃ subsc, some samples.subscB = some subsc ∧ subsc.AnalyticsEventSubsc ≠ [] ∧
      subsc.NotifURI ≠ "" ∧ subsc.NotifID ≠ "" :=
  ⟨by decide,
   C10_stored_well_formed
     [WriteRequest.post "af1" (some samples.subscA) "sub-1",
      WriteRequest.put "af1" "sub-1" (some samples.subscB),
      WriteRequest.post "af2" (some { samples.subscB with NotifID := "" }) "sub-9",
      WriteRequest.delete "af1" "sub-0"] "af1" "sub-1" (some samples.subscB) (by decide)⟩

/-! ## Lemmas on presence, framing and enumeration -/

/-- A get returns no error exactly when something is stored under the key. -/
theorem get_err_none_iff (st : InMemoryStore) (afID subscriptionID : String) :
    (st.GetSubscription afID subscriptionID).2 = none ↔ ¬ st.Absent afID subscriptionID := by
  unfold InMemoryStore.GetSubscription InMemoryStore.Absent
  cases hl : st.subscriptions.lookup afID with
  | none => simp
  | some afSubs =>
    cases hi : afSubs.lookup subscriptionID with
    | none => simp [hi]
    | some p => simp [hi]

/-- The error of a create: nil when nothing is stored under the key, the
already-exists error when something is. -/
theorem create_err_cases (st : InMemoryStore) (afID subscriptionID : String)
    (subsc : SubscPtr) :
    (st.Absent afID subscriptionID →
      (st.CreateSubscription afID subscriptionID subsc).2 = none) ∧
    (¬ st.Absent afID subscriptionID →
      (st.CreateSubscription afID subscriptionID subsc).2 = errAlreadyExists) := by
  unfold InMemoryStore.CreateSubscription InMemoryStore.Absent errAlreadyExists
  cases hl : st.subscriptions.lookup afID with
  | none => simp [hl, AList.lookup_insert, AList.lookup_empty]
  | some afSubs =>
    cases hi : afSubs.lookup subscriptionID with
    | none => simp [hl, hi]
    | some p => simp [hl, hi]

/-- After a delete nothing is stored under the deleted key, whether or not the
delete found an entry. -/
theorem delete_absent (st : InMemoryStore) (afID subscriptionID : String) :
    (st.DeleteSubscription afID subscriptionID).1.Absent afID subscriptionID := by
  unfold InMemoryStore.DeleteSubscription
  cases hl : st.subscriptions.lookup afID with
  | none => simp [InMemoryStore.Absent, hl]
  | some afSubs =>
    cases hi : afSubs.lookup subscriptionID with
    | none => simp [InMemoryStore.Absent, hl, hi]
    | some p => simp [InMemoryStore.Absent, hi, AList.lookup_insert, AList.lookup_erase]

/-- C11: `CreateSubscription(o, i, s)` fails with the already-exists error
exactly when `GetSubscription(o, i)` finds a subscription stored under `(o, i)`,
and returns no error exactly when it finds none.  In particular it succeeds
when `i` is stored under another owner `o2` but not under `o`, and it succeeds
on the state left by `DeleteSubscription(o, i)`. -/
theorem C11_already_exists_iff (st : InMemoryStore) (afID subscriptionID : String)
    (subsc : SubscPtr) :
    ((st.CreateSubscription afID subscriptionID subsc).2 = errAlreadyExists ↔
      (st.GetSubscription afID subscriptionID).2 = none) ∧
    ((st.CreateSubscription afID subscriptionID subsc).2 = none ↔
      (st.GetSubscription afID subscriptionID).2 ≠ none) ∧
    (∀ afID2, afID2 ≠ afID → (st.GetSubscription afID2 subscriptionID).2 = none →
      (st.GetSubscription afID subscriptionID).2 ≠ none →
      (st.CreateSubscription afID subscriptionID subsc).2 = none) ∧
    ((st.DeleteSubscription afID subscriptionID).1.CreateSubscription
      afID subscriptionID subsc).2 = none := by
  have hc := create_err_cases st afID subscriptionID subsc
  have hg := get_err_none_iff st afID subscriptionID
  have hne : errAlreadyExists ≠ (none : GoError) := by decide
  have h2 : (st.CreateSubscription afID subscriptionID subsc).2 = none ↔
      (st.GetSubscription afID subscriptionID).2 ≠ none := by
    constructor
    · intro h hget
      have := hc.2 (hg.1 hget)
      rw [h] at this
      exact hne this.symm
    · intro h
      exact hc.1 (by
        by_contra hab
        exact h (hg.2 hab))
  refine ⟨?_, h2, fun _ _ _ h => h2.2 h, ?_⟩
  · constructor
    · intro h
      by_contra hget
      have := h2.2 hget
      rw [h] at this
      exact hne this
    · intro h
      exact hc.2 (hg.1 h)
  · exact (create_err_cases _ afID subscriptionID subsc).1 (delete_absent st afID subscriptionID)

/-- Witness of C11: on the store where `af1` holds `sub-1`, a create of
`sub-1` under `af1` fails, a create of `sub-1` under `af2` succeeds, and a
create of `sub-1` under `af1` succeeds once the entry has been deleted. -/
theorem C11_already_exists_iff_witness :
    (samples.storeA.CreateSubscription "af1" "sub-1" (some samples.subscB)).2 =
      errAlreadyExists ∧
    (samples.storeA.CreateSubscription "af2" "sub-1" (some samples.subscB)).2 = none ∧
    (samples.storeA.DeleteSubscription "af1" "sub-1").2 = none ∧
    ((samples.storeA.DeleteSubscription "af1" "sub-1").1.CreateSubscription
      "af1" "sub-1" (some samples.subscB)).2 = none :=
  ⟨(C11_already_exists_iff samples.storeA "af1" "sub-1" (some samples.subscB)).1.2 (by decide),
   (C11_already_exists_iff samples.storeA "af2" "sub-1" (some samples.subscB)).2.2.1
     "af1" (by decide) (by decide) (by decide),
   by decide,
   (C11_already_exists_iff samples.storeA "af1" "sub-1" (some samples.subscB)).2.2.2⟩

/-- C12: the query is a function of the request alone.  For every request,
every two owner ids and every two store states, `GetAnalyticsData` returns the
same snapshot and error; through the Store interface it hands back the state it
was given; and `FetchAnalyticsData` over the in-memory store leaves the state as
it was and answers alike for both owners and both states. -/
theorem C12_query_pure (r : AnalyticsRequest) (afID1 afID2 : String)
    (st1 st2 : InMemoryStore) :
    st1.GetAnalyticsData afID1 r = st2.GetAnalyticsData afID2 r ∧
    (InMemoryStore.asStore.GetAnalyticsData st1 afID1 r).1 = st1 ∧
    (InMemoryStore.asStore.GetAnalyticsData st1 afID1 r).2 =
      (InMemoryStore.asStore.GetAnalyticsData st2 afID2 r).2 ∧
    (server.FetchAnalyticsData st1 afID1 (some r)).1 = st1 ∧
    (server.FetchAnalyticsData st1 afID1 (some r)).2 =
      (server.FetchAnalyticsData st2 afID2 (some r)).2 := by
  refine ⟨rfl, rfl, rfl, ?_, ?_⟩
  · unfold Handler.FetchAnalyticsData
    by_cases hsf : r.SuppFeat = ""
    · simp [hsf]
    · simp [hsf, server, NewHandler, InMemoryStore.asStore, InMemoryStore.GetAnalyticsData]
  · unfold Handler.FetchAnalyticsData
    by_cases hsf : r.SuppFeat = ""
    · simp [hsf]
    · simp [hsf, server, NewHandler, InMemoryStore.asStore, InMemoryStore.GetAnalyticsData]

/-- C13: for a query whose suppFeat is the empty string, whatever its other
fields, `FetchAnalyticsData` answers 400 with the error `suppFeat is required`
and returns the store state it was given.  The answer is the same for every
implementation of the Store interface, so `GetAnalyticsData` is not invoked. -/
theorem C13_fetch_rejects_empty_suppFeat {σ : Type} (st : σ) (afID : String)
    (req : AnalyticsRequest) (hsf : req.SuppFeat = "") :
    ∀ h : Handler σ,
      h.FetchAnalyticsData st afID (some req) =
        (st, { status := http.StatusBadRequest, location := none,
               body := Body.error "suppFeat is required" }) := by
  intro h
  unfold Handler.FetchAnalyticsData
  simp [hsf]

/-- Witness of C13: a UE_MOBILITY query with an empty suppFeat, on the
in-memory store that holds one subscription. -/
theorem C13_fetch_rejects_empty_suppFeat_witness :
    server.FetchAnalyticsData samples.storeA "af1"
        (some { samples.query UE_MOBILITY with SuppFeat := "" }) =
      (samples.storeA,
        { status := http.StatusBadRequest, location := none,
          body := Body.error "suppFeat is required" }) :=
  C13_fetch_rejects_empty_suppFeat samples.storeA "af1"
    { samples.query UE_MOBILITY with SuppFeat := "" } rfl server

/-- A writing call does not touch the inner map of any other owner. -/
theorem call_lookup_other (st : InMemoryStore) (c : WriteCall) (afID2 : String)
    (h : afID2 ≠ c.afID) :
    (st.call c).1.subscriptions.lookup afID2 = st.subscriptions.lookup afID2 := by
  cases c with
  | create afID subscriptionID subsc =>
    simp only [WriteCall.afID] at h
    simp only [InMemoryStore.call, InMemoryStore.CreateSubscription]
    cases hl : st.subscriptions.lookup afID with
    | none =>
      simp [AList.lookup_insert, AList.lookup_empty, AList.lookup_insert_ne h]
    | some afSubs =>
      by_cases hi : (afSubs.lookup subscriptionID).isSome
      · simp [hl, hi]
      · simp [hl, hi, AList.lookup_insert_ne h]
  | update afID subscriptionID subsc =>
    simp only [WriteCall.afID] at h
    simp only [InMemoryStore.call, InMemoryStore.UpdateSubscription]
    cases hl : st.subscriptions.lookup afID with
    | none => rfl
    | some afSubs =>
      by_cases hi : (afSubs.lookup subscriptionID).isSome
      · simp [hi, AList.lookup_insert_ne h]
      · simp [hi]
  | delete afID subscriptionID =>
    simp only [WriteCall.afID] at h
    simp only [InMemoryStore.call, InMemoryStore.DeleteSubscription]
    cases hl : st.subscriptions.lookup afID with
    | none => rfl
    | some afSubs =>
      by_cases hi : (afSubs.lookup subscriptionID).isSome
      · simp [hi, AList.lookup_insert_ne h]
      · simp [hi]

/-- A writing call does not change what a get returns for another id of the
owner it is addressed to. -/
theorem call_get_other_id (st : InMemoryStore) (c : WriteCall) (subscriptionID2 : String)
    (h : subscriptionID2 ≠ c.subscriptionID) :
    (st.call c).1.GetSubscription c.afID subscriptionID2 =
      st.GetSubscription c.afID subscriptionID2 := by
  cases c with
  | create afID subscriptionID subsc =>
    simp only [WriteCall.subscriptionID] at h
    simp only [InMemoryStore.call, WriteCall.afID, InMemoryStore.CreateSubscription,
      InMemoryStore.GetSubscription]
    cases hl : st.subscriptions.lookup afID with
    | none =>
      simp only [hl, Option.isSome_none, Bool.false_eq_true, if_false, AList.lookup_insert,
        Option.getD_some, AList.lookup_empty, AList.lookup_insert_ne h]
    | some afSubs =>
      by_cases hi : (afSubs.lookup subscriptionID).isSome
      · simp [hi, hl]
      · simp [hi, hl, AList.lookup_insert, AList.lookup_insert_ne h]
  | update afID subscriptionID subsc =>
    simp only [WriteCall.subscriptionID] at h
    simp only [InMemoryStore.call, WriteCall.afID, InMemoryStore.UpdateSubscription,
      InMemoryStore.GetSubscription]
    cases hl : st.subscriptions.lookup afID with
    | none => simp [hl]
    | some afSubs =>
      by_cases hi : (afSubs.lookup subscriptionID).isSome
      · simp [hi, AList.lookup_insert, AList.lookup_insert_ne h]
      · simp [hi, hl]
  | delete afID subscriptionID =>
    simp only [WriteCall.subscriptionID] at h
    simp only [InMemoryStore.call, WriteCall.afID, InMemoryStore.DeleteSubscription,
      InMemoryStore.GetSubscription]
    cases hl : st.subscriptions.lookup afID with
    | none => simp [hl]
    | some afSubs =>
      by_cases hi : (afSubs.lookup subscriptionID).isSome
      · simp [hi, AList.lookup_insert, AList.lookup_erase_ne h]
      · simp [hi, hl]

/-- C15: a `CreateSubscription`, `UpdateSubscription` or `DeleteSubscription`
call addressed to the key `(o, i)`, whether it returns an error or not, leaves
the result of `GetSubscription(o2, i2)` unchanged for every key `(o2, i2)` other
than `(o, i)`, and leaves the result of `GetAllSubscriptions(o2)` unchanged, as
the same list, for every owner `o2` other than `o`. -/
theorem C15_frame (st : InMemoryStore) (c : WriteCall) :
    (∀ afID2 subscriptionID2, (afID2, subscriptionID2) ≠ (c.afID, c.subscriptionID) →
      (st.call c).1.GetSubscription afID2 subscriptionID2 =
        st.GetSubscription afID2 subscriptionID2) ∧
    (∀ afID2, afID2 ≠ c.afID →
      (st.call c).1.GetAllSubscriptions afID2 = st.GetAllSubscriptions afID2) := by
  constructor
  · intro afID2 subscriptionID2 hne
    by_cases ho : afID2 = c.afID
    · subst ho
      exact call_get_other_id st c subscriptionID2 (fun hi => hne (by rw [hi]))
    · unfold InMemoryStore.GetSubscription
      rw [call_lookup_other st c afID2 ho]
  · intro afID2 ho
    unfold InMemoryStore.GetAllSubscriptions
    rw [call_lookup_other st c afID2 ho]

/-- Witness of C15: on the store where `af1` holds `sub-1`, a successful create
of `(af2, sub-1)` leaves the get of `(af1, sub-1)` and the list of `af1` as
before; a successful create of `(af1, sub-2)` and a failing delete of
`(af1, sub-2)` leave the get of `(af1, sub-1)` as before; a successful update
of `(af1, sub-1)` leaves the get of `(af1, sub-2)` as before. -/
theorem C15_frame_witness :
    (samples.storeA.call (WriteCall.create "af2" "sub-1" (some samples.subscB))).1.GetSubscription
        "af1" "sub-1" = samples.storeA.GetSubscription "af1" "sub-1" ∧
    (samples.storeA.call (WriteCall.create "af2" "sub-1" (some samples.subscB))).1.GetAllSubscriptions
        "af1" = samples.storeA.GetAllSubscriptions "af1" ∧
    (samples.storeA.call (WriteCall.create "af1" "sub-2" (some samples.subscB))).1.GetSubscription
        "af1" "sub-1" = samples.storeA.GetSubscription "af1" "sub-1" ∧
    (samples.storeA.call (WriteCall.update "af1" "sub-1" (some samples.subscB))).1.GetSubscription
        "af1" "sub-2" = samples.storeA.GetSubscription "af1" "sub-2" ∧
    (samples.storeA.call (WriteCall.delete "af1" "sub-2")).1.GetSubscription
        "af1" "sub-1" = samples.storeA.GetSubscription "af1" "sub-1" :=
  ⟨(C15_frame samples.storeA (WriteCall.create "af2" "sub-1" (some samples.subscB))).1
     "af1" "sub-1" (by decide),
   (C15_frame samples.storeA (WriteCall.create "af2" "sub-1" (some samples.subscB))).2
     "af1" (by decide),
   (C15_frame samples.storeA (WriteCall.create "af1" "sub-2" (some samples.subscB))).1
     "af1" "sub-1" (by decide),
   (C15_frame samples.storeA (WriteCall.update "af1" "sub-1" (some samples.subscB))).1
     "af1" "sub-2" (by decide),
   (C15_frame samples.storeA (WriteCall.delete "af1" "sub-2")).1
     "af1" "sub-1" (by decide)⟩

/-- The stored ids are the ids for which a get returns no error. -/
theorem mem_storedIDs_iff (st : InMemoryStore) (afID subscriptionID : String) :
    subscriptionID ∈ st.storedIDs afID ↔ (st.GetSubscription afID subscriptionID).2 = none := by
  unfold InMemoryStore.storedIDs InMemoryStore.GetSubscription
  cases hl : st.subscriptions.lookup afID with
  | none => simp
  | some afSubs =>
    rw [← AList.mem_keys, ← AList.lookup_isSome]
    cases hi : afSubs.lookup subscriptionID with
    | none => simp [hi]
    | some p => simp [hi]

/-- No id is stored twice under an owner. -/
theorem storedIDs_nodup (st : InMemoryStore) (afID : String) : (st.storedIDs afID).Nodup := by
  unfold InMemoryStore.storedIDs
  cases hl : st.subscriptions.lookup afID with
  | none => exact List.nodup_nil
  | some afSubs => exact afSubs.keys_nodup

/-- The list of an owner is the list of what a get returns for each stored id. -/
theorem getAll_eq_map_get (st : InMemoryStore) (afID : String) :
    (st.GetAllSubscriptions afID).1 =
      (st.storedIDs afID).map (fun i => (st.GetSubscription afID i).1) := by
  unfold InMemoryStore.storedIDs InMemoryStore.GetAllSubscriptions InMemoryStore.GetSubscription
  cases hl : st.subscriptions.lookup afID with
  | none => rfl
  | some afSubs =>
    simp only [AList.keys, List.keys, List.map_map]
    apply List.map_congr_left
    intro e he
    have hm : e.2 ∈ afSubs.lookup e.1 := AList.mem_lookup_iff.2 (by simpa using he)
    have hs : afSubs.lookup e.1 = some e.2 := hm
    simp [hs]

/-- Counting a value in the image of a duplicate-free list counts the elements
mapped to it. -/
theorem count_map_eq_ncard {α β : Type} [DecidableEq α] [BEq β] [LawfulBEq β] (l : List α)
    (hl : l.Nodup) (f : α → β) (v : β) :
    (l.map f).count v = Set.ncard {i | i ∈ l ∧ f i = v} := by
  have hset : {i | i ∈ l ∧ f i = v} = ↑(l.filter (fun i => f i == v)).toFinset := by
    ext i
    simp
  rw [hset, Set.ncard_coe_Finset, List.toFinset_card_of_nodup (hl.filter _),
    List.count_eq_countP, List.countP_map, List.countP_eq_length_filter]
  congr 1

/-- The length of a duplicate-free list is the number of its elements. -/
theorem length_eq_ncard {α : Type} [DecidableEq α] (l : List α) (hl : l.Nodup) :
    l.length = Set.ncard {i | i ∈ l} := by
  have hset : {i | i ∈ l} = ↑l.toFinset := by
    ext i
    simp
  rw [hset, Set.ncard_coe_Finset, List.toFinset_card_of_nodup hl]

/-- A create that returns no error makes the owner's list one entry longer. -/
theorem create_ok_length (st : InMemoryStore) (afID subscriptionID : String) (subsc : SubscPtr)
    (h : (st.CreateSubscription afID subscriptionID subsc).2 = none) :
    ((st.CreateSubscription afID subscriptionID subsc).1.GetAllSubscriptions afID).1.length =
      (st.GetAllSubscriptions afID).1.length + 1 := by
  have hl := create_lookup st afID subscriptionID subsc h
  have hab : st.Absent afID subscriptionID := by
    by_contra hab
    have := (create_err_cases st afID subscriptionID subsc).2 hab
    rw [h] at this
    exact absurd this (by decide)
  unfold InMemoryStore.GetAllSubscriptions
  rw [hl]
  unfold InMemoryStore.Absent at hab
  cases hs : st.subscriptions.lookup afID with
  | none => simp [AList.insert_entries]
  | some afSubs =>
    rw [hs] at hab
    have hnm : subscriptionID ∉ afSubs := AList.lookup_eq_none.1 hab
    simp only [Option.getD_some, AList.insert_entries_of_neg hnm, List.map_cons,
      List.length_cons, List.length_map]

/-- Creates that all return no error make the owner's list longer by their number. -/
theorem createAll_ok_length (afID : String) (cs : List (String × SubscPtr)) :
    ∀ st : InMemoryStore, (∀ e ∈ (st.createAll afID cs).2, e = none) →
      ((st.createAll afID cs).1.GetAllSubscriptions afID).1.length =
        (st.GetAllSubscriptions afID).1.length + cs.length := by
  induction cs with
  | nil =>
    intro st _
    rfl
  | cons c cs ih =>
    intro st hok
    simp only [InMemoryStore.createAll, List.mem_cons, forall_eq_or_imp] at hok ⊢
    rw [ih _ hok.2, create_ok_length st afID c.1 c.2 hok.1, List.length_cons]
    omega

/-- C16: `GetAllSubscriptions(o)` returns exactly the subscriptions stored
under `o`, one per stored id.  The stored ids form a duplicate-free list, they
are the ids for which `GetSubscription(o, i)` returns no error, and the
returned list is what the get returns for each of them in turn; so its length
is the number of ids for which the get succeeds, and a value occurs in it as
often as there are ids under which the get returns it.  Hence creates for `o`
that all return no error make the list longer by their number: `N` entries
after `N` successful creates on an owner whose list was empty. -/
theorem C16_list_is_stored (st : InMemoryStore) (afID : String) :
    (st.storedIDs afID).Nodup ∧
    (∀ i, i ∈ st.storedIDs afID ↔ (st.GetSubscription afID i).2 = none) ∧
    (st.GetAllSubscriptions afID).1 =
      (st.storedIDs afID).map (fun i => (st.GetSubscription afID i).1) ∧
    (st.GetAllSubscriptions afID).1.length =
      Set.ncard {i | (st.GetSubscription afID i).2 = none} ∧
    (∀ v, (st.GetAllSubscriptions afID).1.count v =
      Set.ncard {i | st.GetSubscription afID i = (v, none)}) ∧
    (∀ cs : List (String × SubscPtr), (∀ e ∈ (st.createAll afID cs).2, e = none) →
      ((st.createAll afID cs).1.GetAllSubscriptions afID).1.length =
        (st.GetAllSubscriptions afID).1.length + cs.length) := by
  refine ⟨storedIDs_nodup st afID, mem_storedIDs_iff st afID, getAll_eq_map_get st afID,
    ?_, ?_, fun cs hok => createAll_ok_length afID cs st hok⟩
  · rw [getAll_eq_map_get, List.length_map, length_eq_ncard _ (storedIDs_nodup st afID)]
    congr 1
    ext i
    exact mem_storedIDs_iff st afID i
  · intro v
    rw [getAll_eq_map_get, count_map_eq_ncard _ (storedIDs_nodup st afID)]
    congr 1
    ext i
    simp only [Set.mem_setOf_eq, mem_storedIDs_iff, Prod.ext_iff]
    exact and_comm

/-- Witness of C16: three creates with the ids `sub-1`, `sub-2`, `sub-3` for
the owner `af1` of the empty store all return no error, and the list of `af1`
then has three entries. -/
theorem C16_list_is_stored_witness :
    (∀ e ∈ (NewInMemoryStore.createAll "af1"
        [("sub-1", some samples.subscA), ("sub-2", some samples.subscB),
         ("sub-3", some samples.subscA)]).2, e = none) ∧
    (NewInMemoryStore.GetAllSubscriptions "af1").1 = [] ∧
    ((NewInMemoryStore.createAll "af1"
        [("sub-1", some samples.subscA), ("sub-2", some samples.subscB),
         ("sub-3", some samples.subscA)]).1.GetAllSubscriptions "af1").1.length = 3 :=
  ⟨by decide, by decide,
   (C16_list_is_stored NewInMemoryStore "af1").2.2.2.2.2
     [("sub-1", some samples.subscA), ("sub-2", some samples.subscB),
      ("sub-3", some samples.subscA)] (by decide)⟩
